import Mathlib

/-!
Shallow embedding of `wrapt_timeout_decorator/wrap_function_multiprocess.py`.

The parent side (`Timeout.__call__`, `Timeout.cancel`, `Timeout.value`,
`Timeout.wait_until_process_started`) is embedded as pure functions that
return an outcome together with a trace of the externally visible effects
(pipe creation, daemon-flag assignment, process start, message reception,
child termination, bounded join, connection close).  The child side
(`_target`) is embedded as a pure function from a description of the
computation's behaviour to the transcript of messages it sends on the pipe
and whether it closed its write end.

The pipe is modelled by its complete transcript: the list of messages the
child ever sends.  `_target` closes its write end in a `finally` block on
every path (proved below), so a parent `recv` on an exhausted transcript
observes end-of-file (Python raises `EOFError`), modelled as the
`channelClosed` outcome.  Whether the outcome message becomes readable
within the configured budget is a timing fact outside the code; it enters
the model as the oracle `timely`, and similarly `aliveAtCancel` records
whether the child process is still alive when `cancel` queries it.
-/

namespace Wrapt

/-- A message on the pipe: the `'started'` sentinel string sent by the child
in soft-timeout mode, or the outcome pair `(exception_occured, payload)`
sent by `_target`. -/
inductive Msg (α : Type) where
  | started : Msg α
  | outcome (exception_occured : Bool) (payload : α) : Msg α
deriving DecidableEq, Repr

/-- Is a message an Outcome Message (as opposed to the start sentinel)? -/
def isOutcome {α : Type} : Msg α → Bool
  | Msg.started => false
  | Msg.outcome _ _ => true

/-- Externally visible effects of one invocation, in program order. -/
inductive Effect where
  | createPipe
  | setDaemon (daemonic : Bool)
  | startProcess
  | recvMsg
  | terminateChild
  | joinChild (bound : Nat)
  | closeParentConn
  | closeChildConn
deriving DecidableEq, Repr

/-- What an invocation does to its caller: return a value, raise the
configured timeout exception, re-raise a failure carried across the pipe,
raise `EOFError` because the writer closed without sending
(`channelClosed`), raise `ValueError` from unpacking a non-pair message
(`unpackError`), or raise `AttributeError` from touching the absent
process (`attrError`). -/
inductive InvokeOutcome (α : Type) where
  | returns (v : α)
  | timeoutRaised (kind msg : String)
  | propagatedRaised (e : α)
  | channelClosed
  | unpackError
  | attrError
deriving DecidableEq, Repr

/-- Behaviour of the wrapped computation inside the child process:
`run = .ok v` means the function returned `v`, `run = .error e` means it
raised the exception `e`.  `sendResultFails = some e` means the
`child_conn.send((False, result))` call itself raised `e` (for example
because the result cannot be pickled); `none` means it succeeded. -/
structure ChildEnv (α : Type) where
  run : Except α α
  sendResultFails : Option α
deriving Repr

/-- Embedding of `_target(child_conn, dec_hard_timeout, function, ...)`:
the transcript of messages sent on `child_conn` and whether the write end
was closed.  The source first sends `'started'` unless `dec_hard_timeout`,
then tries `child_conn.send((False, function(...)))`; a bare `except:`
catches any exception raised so far and sends
`(True, sys.exc_info()[1])`; a `finally:` closes `child_conn`. -/
def _target {α : Type} (dec_hard_timeout : Bool) (env : ChildEnv α) :
    List (Msg α) × Bool :=
  let start := if dec_hard_timeout then [] else [Msg.started]
  match env.run with
  | Except.error e => (start ++ [Msg.outcome true e], true)
  | Except.ok v =>
    match env.sendResultFails with
    | none => (start ++ [Msg.outcome false v], true)
    | some e => (start ++ [Msg.outcome true e], true)

/-- Platform facts read at spawn time: `sys.version_info` (major, minor)
and the two helper predicates `is_system_windows()` and
`is_in_main_thread()` from `wrap_helper.py`, treated as opaque booleans. -/
structure Platform where
  versionMajor : Nat
  versionMinor : Nat
  isWindows : Bool
  inMainThread : Bool
deriving DecidableEq, Repr

/-- `sys.version_info < (3, 0)`: Python tuple comparison is lexicographic
(the minor component is compared against 0, which can never succeed for a
non-negative minor, kept for fidelity to the source expression). -/
def versionBelow3 (pf : Platform) : Bool :=
  decide (pf.versionMajor < 3) ||
    (decide (pf.versionMajor = 3) && decide (pf.versionMinor < 0))

/-- The daemon flag assigned to the child process in `Timeout.__call__`:
`False` exactly when running under a pre-3.0 runtime on Windows off the
main thread, `True` otherwise. -/
def daemonFlag (pf : Platform) : Bool :=
  if versionBelow3 pf && pf.isWindows && !pf.inMainThread then false
  else true

/-- The decorator configuration held by a `Timeout` instance:
`dec_timeout` (the soft budget, `none` for Python `None`),
`dec_hard_timeout`, and the configured timeout exception kind and
message. -/
structure Config where
  dec_timeout : Option Nat
  dec_hard_timeout : Bool
  timeout_exception : String
  exception_message : String
deriving DecidableEq, Repr

/-- Modelled from the spec: `raise_exception` lives in `wrap_helper.py`,
which is not under `src/`; per the spec it raises the caller-configured
timeout failure kind carrying the caller-configured message. -/
def raise_exception (α : Type) (kind msg : String) : InvokeOutcome α :=
  InvokeOutcome.timeoutRaised kind msg

/-- Modelled from the spec: the Channel Pair's
`read_end.poll(duration) -> bool` (the `multiprocess` pipe implementation
is not under `src/`).  Per the spec, an absent or zero duration treats
"no timeout" as "wait forever"; since the child always eventually sends
or closes, such a poll returns `true`.  For a positive budget the oracle
`timely` records whether something became readable within the budget. -/
def poll (budget : Option Nat) (timely : Bool) : Bool :=
  match budget with
  | none => true
  | some 0 => true
  | some (_ + 1) => timely

/-- Environment of one parent-side invocation: the complete pipe
transcript, the timing oracle for the budgeted poll, and whether the
child is still alive when `cancel` queries `is_alive()`. -/
structure InvEnv (α : Type) where
  msgs : List (Msg α)
  timely : Bool
  aliveAtCancel : Bool
deriving DecidableEq, Repr

/-- Embedding of the `Timeout.value` property: `recv()` the pair
(EOF if the writer closed without sending; `ValueError` if the message is
not a pair), then `join(timeout=1.0)`, then close the parent connection,
then raise the carried failure or return the carried value. -/
def value {α : Type} (msgs : List (Msg α)) : InvokeOutcome α × List Effect :=
  match msgs with
  | [] => (InvokeOutcome.channelClosed, [Effect.recvMsg])
  | Msg.started :: _ => (InvokeOutcome.unpackError, [Effect.recvMsg])
  | Msg.outcome exc payload :: _ =>
    ((if exc then InvokeOutcome.propagatedRaised payload
      else InvokeOutcome.returns payload),
     [Effect.recvMsg, Effect.joinChild 1, Effect.closeParentConn])

/-- Embedding of the body of `Timeout.cancel` past the `is_alive` query:
terminate if alive, `join(timeout=1.0)`, close the parent connection,
`raise_exception(...)`. -/
def cancel (α : Type) (cfg : Config) (alive : Bool) :
    InvokeOutcome α × List Effect :=
  (raise_exception α cfg.timeout_exception cfg.exception_message,
   (if alive then [Effect.terminateChild] else []) ++
     [Effect.joinChild 1, Effect.closeParentConn])

/-- The per-instance state set up by `Timeout.__init__`: the process and
parent connection start as `None` and are only assigned in `__call__`.
`processAlive = some b` stands for a spawned process whose
`is_alive()` returns `b`. -/
structure TimeoutState where
  processAlive : Option Bool
  hasParentConn : Bool
deriving DecidableEq, Repr

/-- The state right after `Timeout.__init__`: `self.__process = None`,
`self.__parent_conn = None`. -/
def initState : TimeoutState :=
  { processAlive := none, hasParentConn := false }

/-- Embedding of the `Timeout.cancel` method including its first
statement `if self.__process.is_alive():` — on the `None` process this
raises `AttributeError` before any other effect. -/
def cancelMethod (α : Type) (cfg : Config) (st : TimeoutState) :
    InvokeOutcome α × List Effect :=
  match st.processAlive with
  | none => (InvokeOutcome.attrError, [])
  | some alive => cancel α cfg alive

/-- The timed phase of `Timeout.__call__`:
`if self.__parent_conn.poll(self.dec_timeout): return self.value
 else: self.cancel()`. -/
def runningPhase {α : Type} (cfg : Config) (msgs : List (Msg α))
    (timely alive : Bool) : InvokeOutcome α × List Effect :=
  if poll cfg.dec_timeout timely then value msgs
  else cancel α cfg alive

/-- Prepend already-performed effects to a phase result. -/
def withPre {α : Type} (pre : List Effect)
    (r : InvokeOutcome α × List Effect) : InvokeOutcome α × List Effect :=
  (r.1, pre ++ r.2)

/-- Effects of `Timeout.__call__` up to and including `process.start()`:
pipe creation, daemon-flag assignment, process start. -/
def spawnEffects (pf : Platform) : List Effect :=
  [Effect.createPipe, Effect.setDaemon (daemonFlag pf), Effect.startProcess]

/-- Embedding of `Timeout.__call__`: create the pipe, set the daemon
flag, start the child; in soft mode `wait_until_process_started()` does
one `recv()` (EOF if the transcript is empty, i.e. the writer closed
without sending); then the timed poll selects `value` or `cancel`. -/
def invoke {α : Type} (cfg : Config) (pf : Platform) (env : InvEnv α) :
    InvokeOutcome α × List Effect :=
  if cfg.dec_hard_timeout then
    withPre (spawnEffects pf)
      (runningPhase cfg env.msgs env.timely env.aliveAtCancel)
  else
    match env.msgs with
    | [] => (InvokeOutcome.channelClosed, spawnEffects pf ++ [Effect.recvMsg])
    | _ :: rest =>
      withPre (spawnEffects pf ++ [Effect.recvMsg])
        (runningPhase cfg rest env.timely env.aliveAtCancel)

/-- Invocation environment produced by running `_target` with the given
child behaviour: the pipe transcript is exactly what the child sends. -/
def envOf {α : Type} (cenv : ChildEnv α) (dec_hard_timeout : Bool)
    (timely alive : Bool) : InvEnv α :=
  { msgs := (_target dec_hard_timeout cenv).1
    timely := timely
    aliveAtCancel := alive }

/-- A platform as seen by a modern CPython on Linux, main thread. -/
def pf0 : Platform :=
  { versionMajor := 3, versionMinor := 8, isWindows := false, inMainThread := true }

/-- A soft-timeout configuration with a budget of 5 time units. -/
def cfgSoft : Config :=
  { dec_timeout := some 5, dec_hard_timeout := false,
    timeout_exception := "TimeoutError", exception_message := "timed out" }

/-- A hard-timeout configuration with no budget (`dec_timeout = None`). -/
def cfgNoBudget : Config :=
  { dec_timeout := none, dec_hard_timeout := true,
    timeout_exception := "TimeoutError", exception_message := "timed out" }

/-- A child whose computation returns `5` and whose sends succeed. -/
def cenvOk : ChildEnv Nat :=
  { run := Except.ok 5, sendResultFails := none }

/-- A child whose computation raises the failure `3`. -/
def cenvRaises : ChildEnv Nat :=
  { run := Except.error 3, sendResultFails := none }

/-- A child whose computation returns `5` but whose success send raises
`9` (for example, an unpicklable return value). -/
def cenvSendFail : ChildEnv Nat :=
  { run := Except.ok 5, sendResultFails := some 9 }

/-- A soft-mode transcript whose Outcome Message carries the value `42`,
arriving in time. -/
def envC1 : InvEnv Nat :=
  { msgs := [Msg.started, Msg.outcome false 42], timely := true,
    aliveAtCancel := false }

/-- A soft-mode transcript whose Outcome Message arrives too late
(`timely = false`), with the child still alive at cancellation. -/
def envLate : InvEnv Nat :=
  { msgs := [Msg.started, Msg.outcome false 42], timely := false,
    aliveAtCancel := true }

/-- A hard-mode transcript whose Outcome Message carries the value `7`. -/
def envC6 : InvEnv Nat :=
  { msgs := [Msg.outcome false 7], timely := true, aliveAtCancel := false }

/-- The transcript of a child that closed its pipe without sending. -/
def envClosed : InvEnv Nat :=
  { msgs := [], timely := true, aliveAtCancel := false }

/-- The `version_info < (3, 0)` test is equivalent to `major < 3`. -/
lemma versionBelow3_iff (pf : Platform) :
    versionBelow3 pf = true ↔ pf.versionMajor < 3 := by
  simp [versionBelow3]

/-- C4: whatever the computation does, `_target` closes the write end,
sends exactly one Outcome Message, and when the computation raises `e`
the transcript is the optional start sentinel followed by
`(True, e)` — the failure is reported as data, never propagated out of
the child. -/
theorem C4_child_failure_capture {α : Type} (hard : Bool) (cenv : ChildEnv α) :
    (_target hard cenv).2 = true ∧
    ((_target hard cenv).1.countP (fun m => isOutcome m) = 1) ∧
    (∀ e, cenv.run = Except.error e →
      (_target hard cenv).1 =
        (if hard then [] else [Msg.started]) ++ [Msg.outcome true e]) := by
  rcases cenv with ⟨run, sf⟩
  rcases run with e | v <;> rcases sf with _ | e' <;> cases hard <;>
    simp [_target, isOutcome]

/-- Witness for C4 at a concrete input: a child whose computation raises
`3` in hard mode sends exactly `[(True, 3)]` and closes the pipe. -/
theorem C4_witness :
    (_target true cenvRaises).2 = true ∧
    (_target true cenvRaises).1 = [Msg.outcome true 3] :=
  ⟨(C4_child_failure_capture true cenvRaises).1,
   (C4_child_failure_capture true cenvRaises).2.2 3 rfl⟩

/-- C8: the child is marked daemonic except exactly when the runtime is
below 3.0, the OS is Windows, and the call is off the main thread; the
invocation records the assignment of exactly this flag. -/
theorem C8_daemon_flag {α : Type} (pf : Platform) (cfg : Config) (env : InvEnv α) :
    (daemonFlag pf = false ↔
      (pf.versionMajor < 3 ∧ pf.isWindows = true ∧ pf.inMainThread = false)) ∧
    Effect.setDaemon (daemonFlag pf) ∈ (invoke cfg pf env).2 := by
  constructor
  · have hv := versionBelow3_iff pf
    unfold daemonFlag
    cases hw : pf.isWindows <;> cases hm : pf.inMainThread <;>
      cases hvb : versionBelow3 pf <;> simp_all
  · unfold invoke
    split
    · simp [withPre, spawnEffects]
    · cases env.msgs <;> simp [withPre, spawnEffects]

/-- C9: if the computation returns `v` but sending `(False, v)` itself
raises `e`, the bare `except:` catches it and the child sends `(True, e)`
instead, still closing the write end. -/
theorem C9_send_failure_fallback {α : Type} (hard : Bool) (cenv : ChildEnv α)
    (v e : α) (hrun : cenv.run = Except.ok v)
    (hfail : cenv.sendResultFails = some e) :
    _target hard cenv =
      ((if hard then [] else [Msg.started]) ++ [Msg.outcome true e], true) := by
  rcases cenv with ⟨run, sf⟩
  cases hrun
  cases hfail
  rfl

/-- Witness for C9 at a concrete input: computation returns `5`, the
success send raises `9`, soft mode. -/
theorem C9_witness :
    _target false cenvSendFail = ([Msg.started, Msg.outcome true 9], true) :=
  C9_send_failure_fallback false cenvSendFail 5 9 rfl rfl

/-- C10: calling `cancel` on a freshly constructed `Timeout` (process
still `None`) raises `AttributeError` before any effect, not the
configured timeout exception. -/
theorem C10_cancel_in_idle_state (α : Type) (cfg : Config) :
    cancelMethod α cfg initState = (InvokeOutcome.attrError, []) ∧
    ∀ k m, (cancelMethod α cfg initState).1 ≠ InvokeOutcome.timeoutRaised k m := by
  refine ⟨rfl, ?_⟩
  intro k m
  simp [cancelMethod, initState]

/-- `Timeout.value` never produces the configured timeout exception:
that outcome only arises from `cancel`. -/
lemma value_ne_timeout {α : Type} (msgs : List (Msg α)) (k m : String) :
    (value msgs).1 ≠ InvokeOutcome.timeoutRaised k m := by
  rcases msgs with _ | ⟨_ | ⟨exc, p⟩, rest⟩ <;> simp [value]
  split <;> simp

/-- C1: when the poll succeeds and the next unconsumed channel message is
an Outcome Message `(exc, payload)`, `invoke` returns `payload` if the
failure flag is false and re-raises `payload` (never the configured
timeout failure) if the flag is true. -/
theorem C1_outcome_within_budget {α : Type} (cfg : Config) (pf : Platform)
    (env : InvEnv α) (exc : Bool) (payload : α) (rest : List (Msg α))
    (hmsg : (if cfg.dec_hard_timeout then env.msgs else env.msgs.tail) =
      Msg.outcome exc payload :: rest)
    (hpoll : poll cfg.dec_timeout env.timely = true) :
    (invoke cfg pf env).1 =
      (if exc then InvokeOutcome.propagatedRaised payload
       else InvokeOutcome.returns payload) ∧
    ∀ k m, (invoke cfg pf env).1 ≠ InvokeOutcome.timeoutRaised k m := by
  cases hhard : cfg.dec_hard_timeout with
  | true =>
    rw [hhard] at hmsg
    simp at hmsg
    simp [invoke, hhard, withPre, runningPhase, hpoll, hmsg, value]
    cases exc <;> simp
  | false =>
    rw [hhard] at hmsg
    simp at hmsg
    rcases hm : env.msgs with _ | ⟨m, ms⟩
    · rw [hm] at hmsg
      simp at hmsg
    · rw [hm] at hmsg
      simp at hmsg
      simp [invoke, hhard, hm, withPre, runningPhase, hpoll, hmsg, value]
      cases exc <;> simp

/-- Witness for C1 at a concrete input: soft mode, budget 5, timely
outcome carrying `42`; `invoke` returns `42`. -/
theorem C1_witness :
    (invoke cfgSoft pf0 envC1).1 = InvokeOutcome.returns 42 :=
  (C1_outcome_within_budget cfgSoft pf0 envC1 false 42 [] rfl rfl).1

/-- C2: an absent or zero soft budget disables enforcement: no
environment whatsoever makes `invoke` raise the configured timeout
exception, and a computation that (after arbitrarily long finite time)
returns `v` makes `invoke` return `v`. -/
theorem C2_zero_budget_disables_timeout (cfg : Config) (pf : Platform)
    (hbudget : cfg.dec_timeout = none ∨ cfg.dec_timeout = some 0) :
    (∀ (α : Type) (env : InvEnv α) (k m : String),
      (invoke cfg pf env).1 ≠ InvokeOutcome.timeoutRaised k m) ∧
    (∀ (α : Type) (v : α) (cenv : ChildEnv α) (timely alive : Bool),
      cenv.run = Except.ok v → cenv.sendResultFails = none →
      (invoke cfg pf (envOf cenv cfg.dec_hard_timeout timely alive)).1 =
        InvokeOutcome.returns v) := by
  have hpoll : ∀ b, poll cfg.dec_timeout b = true := by
    intro b
    rcases hbudget with h | h <;> simp [poll, h]
  constructor
  · intro α env k m
    cases hhard : cfg.dec_hard_timeout with
    | true =>
      simp [invoke, hhard, withPre, runningPhase, hpoll]
      exact value_ne_timeout env.msgs k m
    | false =>
      rcases hm : env.msgs with _ | ⟨m', ms⟩
      · simp [invoke, hhard, hm]
      · simp [invoke, hhard, hm, withPre, runningPhase, hpoll]
        exact value_ne_timeout ms k m
  · intro α v cenv timely alive hrun hsend
    obtain ⟨run, sf⟩ := cenv
    cases hrun
    cases hsend
    cases hhard : cfg.dec_hard_timeout <;>
      simp [invoke, hhard, envOf, _target, withPre, runningPhase, hpoll, value]

/-- Witness for C2 at a concrete input: no budget (`None`), hard mode,
computation returns `5`; `invoke` returns `5`. -/
theorem C2_witness :
    (invoke cfgNoBudget pf0 (envOf cenvOk true true true)).1 =
      InvokeOutcome.returns 5 :=
  (C2_zero_budget_disables_timeout cfgNoBudget pf0 (Or.inl rfl)).2
    Nat 5 cenvOk true true rfl rfl

/-- C3: when a positive budget elapses with no message available, the
invocation terminates the child exactly when it is still alive, joins it
with bound 1, closes the read end, raises the configured timeout
exception with the configured message, and consumes no Outcome Message
(the only reception, in soft mode, is the pre-poll start sentinel). -/
theorem C3_timeout_path {α : Type} (cfg : Config) (pf : Platform)
    (env : InvEnv α) (t : Nat) (hb : cfg.dec_timeout = some (t + 1))
    (hlate : env.timely = false)
    (hstart : cfg.dec_hard_timeout = false → env.msgs ≠ []) :
    invoke cfg pf env =
      (InvokeOutcome.timeoutRaised cfg.timeout_exception cfg.exception_message,
       spawnEffects pf ++
         (if cfg.dec_hard_timeout then [] else [Effect.recvMsg]) ++
         (if env.aliveAtCancel then [Effect.terminateChild] else []) ++
         [Effect.joinChild 1, Effect.closeParentConn]) ∧
    ((invoke cfg pf env).2.count Effect.recvMsg =
      if cfg.dec_hard_timeout then 0 else 1) ∧
    (Effect.terminateChild ∈ (invoke cfg pf env).2 ↔ env.aliveAtCancel = true) := by
  have hpoll : poll cfg.dec_timeout env.timely = false := by
    simp [poll, hb, hlate]
  cases hhard : cfg.dec_hard_timeout with
  | true =>
    cases halive : env.aliveAtCancel <;>
      simp [invoke, hhard, halive, withPre, runningPhase, hpoll, cancel,
        raise_exception, spawnEffects]
  | false =>
    rcases hm : env.msgs with _ | ⟨m', ms⟩
    · exact absurd hm (hstart hhard)
    · cases halive : env.aliveAtCancel <;>
        simp [invoke, hhard, hm, halive, withPre, runningPhase, hpoll, cancel,
          raise_exception, spawnEffects]

/-- Witness for C3 at a concrete input: soft mode, budget 5, late
outcome, child alive at cancellation. -/
theorem C3_witness :
    invoke cfgSoft pf0 envLate =
      (InvokeOutcome.timeoutRaised "TimeoutError" "timed out",
       [Effect.createPipe, Effect.setDaemon true, Effect.startProcess,
        Effect.recvMsg, Effect.terminateChild, Effect.joinChild 1,
        Effect.closeParentConn]) :=
  (C3_timeout_path cfgSoft pf0 envLate 4 rfl rfl (fun _ => by decide)).1

/-- C5: the soft-mode child transcript is exactly the start sentinel
followed by the hard-mode transcript; no start sentinel exists in hard
mode; a soft-mode supervisor consumes one message (the sentinel) before
the timed poll, which then runs on the outcome-only remainder, while a
hard-mode supervisor begins the timed poll immediately after spawn with
no reception before it. -/
theorem C5_start_signal {α : Type} (cenv : ChildEnv α) (cfg : Config)
    (pf : Platform) (timely alive : Bool) :
    ((_target false cenv).1 = Msg.started :: (_target true cenv).1) ∧
    (Msg.started ∉ (_target true cenv).1) ∧
    (cfg.dec_hard_timeout = false →
      invoke cfg pf (envOf cenv false timely alive) =
        withPre (spawnEffects pf ++ [Effect.recvMsg])
          (runningPhase cfg (_target true cenv).1 timely alive)) ∧
    (cfg.dec_hard_timeout = true →
      invoke cfg pf (envOf cenv true timely alive) =
        withPre (spawnEffects pf)
          (runningPhase cfg (_target true cenv).1 timely alive)) := by
  obtain ⟨run, sf⟩ := cenv
  refine ⟨?_, ?_, ?_, ?_⟩
  · rcases run with e | v <;> rcases sf with _ | e' <;> rfl
  · rcases run with e | v <;> rcases sf with _ | e' <;> simp [_target]
  · intro hh
    rcases run with e | v <;> rcases sf with _ | e' <;>
      simp [invoke, envOf, _target, hh, withPre, runningPhase]
  · intro hh
    simp [invoke, envOf, hh, withPre, runningPhase]

/-- Witness for C5 at a concrete input: the start sentinel leads the
soft transcript, and the soft-mode supervisor consumes it before the
timed phase runs on the outcome-only remainder. -/
theorem C5_witness :
    (_target false cenvOk).1 = Msg.started :: (_target true cenvOk).1 ∧
    invoke cfgSoft pf0 (envOf cenvOk false true true) =
      withPre (spawnEffects pf0 ++ [Effect.recvMsg])
        (runningPhase cfgSoft (_target true cenvOk).1 true true) :=
  ⟨(C5_start_signal cenvOk cfgSoft pf0 true true).1,
   (C5_start_signal cenvOk cfgSoft pf0 true true).2.2.1 rfl⟩

/-- `Timeout.value` never records a close of the write-end handle. -/
lemma closeChildConn_not_in_value {α : Type} (msgs : List (Msg α)) :
    Effect.closeChildConn ∉ (value msgs).2 := by
  rcases msgs with _ | ⟨_ | ⟨exc, p⟩, rest⟩ <;> simp [value]

/-- `Timeout.cancel` never records a close of the write-end handle. -/
lemma closeChildConn_not_in_cancel {α : Type} (cfg : Config) (alive : Bool) :
    Effect.closeChildConn ∉ (cancel α cfg alive).2 := by
  cases alive <;> simp [cancel]

/-- The timed phase never records a close of the write-end handle. -/
lemma closeChildConn_not_in_running {α : Type} (cfg : Config)
    (msgs : List (Msg α)) (timely alive : Bool) :
    Effect.closeChildConn ∉ (runningPhase cfg msgs timely alive).2 := by
  unfold runningPhase
  split
  · exact closeChildConn_not_in_value msgs
  · exact closeChildConn_not_in_cancel cfg alive

/-- The supervisor never closes its handle to the pipe's write end
(`self.__child_conn` is never closed in `Timeout`). -/
lemma closeChildConn_never_emitted {α : Type} (cfg : Config) (pf : Platform)
    (env : InvEnv α) : Effect.closeChildConn ∉ (invoke cfg pf env).2 := by
  cases hhard : cfg.dec_hard_timeout with
  | true =>
    simp [invoke, hhard, withPre, spawnEffects]
    exact closeChildConn_not_in_running cfg env.msgs env.timely env.aliveAtCancel
  | false =>
    rcases hm : env.msgs with _ | ⟨m, ms⟩
    · simp [invoke, hhard, hm, spawnEffects]
    · simp [invoke, hhard, hm, withPre, spawnEffects]
      exact closeChildConn_not_in_running cfg ms env.timely env.aliveAtCancel

/-- The timed phase either records a close of the read end or reports
an unexpected-closure (`channelClosed`) or unpack failure. -/
lemma running_close_or_bad {α : Type} (cfg : Config) (msgs : List (Msg α))
    (timely alive : Bool) :
    Effect.closeParentConn ∈ (runningPhase cfg msgs timely alive).2 ∨
    (runningPhase cfg msgs timely alive).1 = InvokeOutcome.channelClosed ∨
    (runningPhase cfg msgs timely alive).1 = InvokeOutcome.unpackError := by
  unfold runningPhase
  split
  · rcases msgs with _ | ⟨_ | ⟨exc, p⟩, rest⟩ <;> simp [value]
  · cases alive <;> simp [cancel, raise_exception]

/-- C6 counterexample: on a plain success path the invocation never
closes the supervisor's handle to the write end, so the claim that both
ends are closed on every exit path fails already at this input. -/
theorem C6_counterexample :
    (invoke cfgNoBudget pf0 envC6).1 = InvokeOutcome.returns 7 ∧
    Effect.closeChildConn ∉ (invoke cfgNoBudget pf0 envC6).2 := by
  decide

/-- C6 amended: on the success, propagated-failure and timeout exit
paths the supervisor closes its channel read end (`parent_conn`), but it
never closes its handle to the write end (`child_conn`) on any path. -/
theorem C6_amended_close_read_end_only {α : Type} (cfg : Config)
    (pf : Platform) (env : InvEnv α)
    (h : (∃ v, (invoke cfg pf env).1 = InvokeOutcome.returns v) ∨
      (∃ e, (invoke cfg pf env).1 = InvokeOutcome.propagatedRaised e) ∨
      (∃ k m, (invoke cfg pf env).1 = InvokeOutcome.timeoutRaised k m)) :
    Effect.closeParentConn ∈ (invoke cfg pf env).2 ∧
    Effect.closeChildConn ∉ (invoke cfg pf env).2 := by
  refine ⟨?_, closeChildConn_never_emitted cfg pf env⟩
  have hbad1 : (invoke cfg pf env).1 ≠ InvokeOutcome.channelClosed := by
    intro hc
    rw [hc] at h
    rcases h with ⟨v, hv⟩ | ⟨e, he⟩ | ⟨k, m, hk⟩
    · exact absurd hv (by simp)
    · exact absurd he (by simp)
    · exact absurd hk (by simp)
  have hbad2 : (invoke cfg pf env).1 ≠ InvokeOutcome.unpackError := by
    intro hc
    rw [hc] at h
    rcases h with ⟨v, hv⟩ | ⟨e, he⟩ | ⟨k, m, hk⟩
    · exact absurd hv (by simp)
    · exact absurd he (by simp)
    · exact absurd hk (by simp)
  clear h
  cases hhard : cfg.dec_hard_timeout with
  | true =>
    rcases running_close_or_bad cfg env.msgs env.timely env.aliveAtCancel with
      hin | hb | hb
    · simp [invoke, hhard, withPre, spawnEffects, hin]
    · exact absurd (by simp [invoke, hhard, withPre, hb]) hbad1
    · exact absurd (by simp [invoke, hhard, withPre, hb]) hbad2
  | false =>
    rcases hm : env.msgs with _ | ⟨m, ms⟩
    · exact absurd (by simp [invoke, hhard, hm]) hbad1
    · rcases running_close_or_bad cfg ms env.timely env.aliveAtCancel with
        hin | hb | hb
      · simp [invoke, hhard, hm, withPre, spawnEffects, hin]
      · exact absurd (by simp [invoke, hhard, hm, withPre, hb]) hbad1
      · exact absurd (by simp [invoke, hhard, hm, withPre, hb]) hbad2

/-- Witness for the amended C6 at a concrete input: on the success path
the read end is closed and the write-end handle is not. -/
theorem C6_amended_witness :
    Effect.closeParentConn ∈ (invoke cfgNoBudget pf0 envC6).2 ∧
    Effect.closeChildConn ∉ (invoke cfgNoBudget pf0 envC6).2 :=
  C6_amended_close_read_end_only cfgNoBudget pf0 envC6
    (Or.inl ⟨7, by decide⟩)

/-- C7: if the child closed the pipe without sending any message, the
reception fails and `invoke` surfaces the `channelClosed` condition,
which is distinct from both the configured timeout failure and a
propagated computation failure.  (In hard mode this needs the end-of-file
to be observable within the budget, which is what the real `poll`
reports as soon as the writer closes.) -/
theorem C7_channel_closed_distinct {α : Type} (cfg : Config) (pf : Platform)
    (env : InvEnv α) (hempty : env.msgs = [])
    (hp : cfg.dec_hard_timeout = true → poll cfg.dec_timeout env.timely = true) :
    (invoke cfg pf env).1 = InvokeOutcome.channelClosed ∧
    (∀ k m, (invoke cfg pf env).1 ≠ InvokeOutcome.timeoutRaised k m) ∧
    (∀ e : α, (invoke cfg pf env).1 ≠ InvokeOutcome.propagatedRaised e) := by
  have hmain : (invoke cfg pf env).1 = InvokeOutcome.channelClosed := by
    cases hhard : cfg.dec_hard_timeout with
    | false => simp [invoke, hhard, hempty]
    | true => simp [invoke, hhard, hempty, withPre, runningPhase, hp hhard, value]
  refine ⟨hmain, fun k m => ?_, fun e => ?_⟩ <;> rw [hmain] <;> simp

/-- Witness for C7 at a concrete input: soft mode, empty transcript. -/
theorem C7_witness :
    (invoke cfgSoft pf0 envClosed).1 = InvokeOutcome.channelClosed :=
  (C7_channel_closed_distinct cfgSoft pf0 envClosed rfl (fun _ => rfl)).1

end Wrapt
